import Mathlib

/-!
Verification of the value-conversion core of the diwata data-access layer
(src/dao/src/value.rs): the `Value` tagged union, the forward conversion
protocol (`From` impls generated by the impl_from! macro), the backward
conversion protocol (`TryFrom` impls generated by the impl_tryfrom! macro),
the variant-to-label function `get_type_name`, and the tagged serialization
of `Value`.

Machine integers are embedded as mathematical integers (`Int`): every Rust
cast the backward protocol performs on an integer payload is a widening
sign-extension, which is the identity on the represented value.  Floating
point payloads are embedded as their IEEE 754 bit patterns (`Nat`), with
the single widening cast f32-to-f64 spelled out bit-level.
-/

namespace Diwata

/-- Payload of the Tinyint variant: an i8, embedded by its value. -/
abbrev I8 := Int

/-- Payload of the Smallint variant: an i16, embedded by its value. -/
abbrev I16 := Int

/-- Payload of the Int variant: an i32, embedded by its value. -/
abbrev I32 := Int

/-- Payload of the Bigint variant: an i64, embedded by its value. -/
abbrev I64 := Int

/-- Payload of the Float variant: an f32, embedded as its 32-bit pattern. -/
abbrev F32 := Nat

/-- Payload of the Double variant: an f64, embedded as its 64-bit pattern. -/
abbrev F64 := Nat

/-- Payload of the Uuid variant: a 128-bit identifier. -/
abbrev UuidT := Nat

/-- Payload of the Date variant: a chrono NaiveDate, embedded as a day count. -/
abbrev NaiveDateT := Int

/-- Payload of the Timestamp variant: a chrono DateTime in UTC,
embedded as seconds plus subsecond nanoseconds. -/
structure DateTimeUtc where
  secs : Int
  nsecs : Nat
deriving DecidableEq, Repr

/-- Modelled from the spec: the error taxonomy (`mod error` is not under
src/).  One variant, NotSupported(actual_type_name, requested_type_name),
both human-readable strings. -/
inductive ConvertError where
  | NotSupported (actual : String) (requested : String)
deriving DecidableEq, Repr

/-- The `Value` enum of src/dao/src/value.rs: a closed tagged union of
every column value the data-access layer produces or accepts. -/
inductive Value where
  | Nil
  | Bool (b : Bool)
  | Tinyint (x : I8)
  | Smallint (x : I16)
  | Int (x : I32)
  | Bigint (x : I64)
  | Float (x : F32)
  | Double (x : F64)
  | Blob (bytes : List Nat)
  | Text (s : String)
  | Str (s : String)
  | Uuid (u : UuidT)
  | Date (d : NaiveDateT)
  | Timestamp (t : DateTimeUtc)
deriving DecidableEq, Repr

/-- `Value::get_type_name`: the pure variant-to-label function used for the
actual-type string of a NotSupported error. -/
def Value.getTypeName : Value → String
  | Value.Nil => "Nil"
  | Value.Bool _ => "bool"
  | Value.Tinyint _ => "i8"
  | Value.Smallint _ => "i16"
  | Value.Int _ => "i32"
  | Value.Bigint _ => "i64"
  | Value.Float _ => "f32"
  | Value.Double _ => "f64"
  | Value.Blob _ => "Vec<u8>"
  | Value.Text _ => "String"
  | Value.Str _ => "&'static str"
  | Value.Uuid _ => "Uuid"
  | Value.Date _ => "NaiveDate"
  | Value.Timestamp _ => "DateTime"

/-- The fourteen variant tags of `Value`, used to state variant-based
properties of the conversion policy. -/
inductive Tag where
  | nil
  | bool
  | tinyint
  | smallint
  | int
  | bigint
  | float
  | double
  | blob
  | text
  | str
  | uuid
  | date
  | timestamp
deriving DecidableEq, Repr

/-- The tag of a `Value`: which variant it currently holds. -/
def Value.tag : Value → Tag
  | Value.Nil => Tag.nil
  | Value.Bool _ => Tag.bool
  | Value.Tinyint _ => Tag.tinyint
  | Value.Smallint _ => Tag.smallint
  | Value.Int _ => Tag.int
  | Value.Bigint _ => Tag.bigint
  | Value.Float _ => Tag.float
  | Value.Double _ => Tag.double
  | Value.Blob _ => Tag.blob
  | Value.Text _ => Tag.text
  | Value.Str _ => Tag.str
  | Value.Uuid _ => Tag.uuid
  | Value.Date _ => Tag.date
  | Value.Timestamp _ => Tag.timestamp

/-- The Rust cast `v as f64` for `v : f32`, on IEEE 754 bit patterns:
sign and payload carry over, the exponent is rebiased from 127 to 1023,
the 23-bit fraction widens to 52 bits; subnormals normalize, infinities
and NaNs keep an all-ones exponent. -/
def f32ToF64 (b : F32) : F64 :=
  let sign := b / 2 ^ 31
  let exp := (b / 2 ^ 23) % 2 ^ 8
  let frac := b % 2 ^ 23
  if exp = 255 then
    sign * 2 ^ 63 + 2047 * 2 ^ 52 + frac * 2 ^ 29
  else if exp = 0 then
    if frac = 0 then
      sign * 2 ^ 63
    else
      let m := Nat.log2 frac
      sign * 2 ^ 63 + (m + 874) * 2 ^ 52 + (frac - 2 ^ m) * 2 ^ (52 - m)
  else
    sign * 2 ^ 63 + (exp + 896) * 2 ^ 52 + frac * 2 ^ 29

/-!
Forward conversion protocol.  impl_from!($ty, $variant) generates three
impls per type: From owned, From borrowed (payload cloned via to_owned,
same value) and From borrowed Option (Nil for None, delegating to the
borrowed impl for Some).  The option form below is the common macro body,
applied to each per-type borrowed conversion.
-/

/-- The borrowed-Option arm of impl_from!: None becomes Nil, Some
delegates to the borrowed conversion. -/
def fromOptVia (fromRef : α → Value) : Option α → Value
  | some f => fromRef f
  | none => Value.Nil

/-- From owned bool. -/
def from_bool (f : Bool) : Value := Value.Bool f

/-- From borrowed bool: clones the referent. -/
def from_ref_bool (f : Bool) : Value := Value.Bool f

/-- From borrowed Option of bool. -/
def from_opt_bool : Option Bool → Value := fromOptVia from_ref_bool

/-- From owned i8. -/
def from_i8 (f : I8) : Value := Value.Tinyint f

/-- From borrowed i8: clones the referent. -/
def from_ref_i8 (f : I8) : Value := Value.Tinyint f

/-- From borrowed Option of i8. -/
def from_opt_i8 : Option I8 → Value := fromOptVia from_ref_i8

/-- From owned i16. -/
def from_i16 (f : I16) : Value := Value.Smallint f

/-- From borrowed i16: clones the referent. -/
def from_ref_i16 (f : I16) : Value := Value.Smallint f

/-- From borrowed Option of i16. -/
def from_opt_i16 : Option I16 → Value := fromOptVia from_ref_i16

/-- From owned i32. -/
def from_i32 (f : I32) : Value := Value.Int f

/-- From borrowed i32: clones the referent. -/
def from_ref_i32 (f : I32) : Value := Value.Int f

/-- From borrowed Option of i32. -/
def from_opt_i32 : Option I32 → Value := fromOptVia from_ref_i32

/-- From owned i64. -/
def from_i64 (f : I64) : Value := Value.Bigint f

/-- From borrowed i64: clones the referent. -/
def from_ref_i64 (f : I64) : Value := Value.Bigint f

/-- From borrowed Option of i64. -/
def from_opt_i64 : Option I64 → Value := fromOptVia from_ref_i64

/-- From owned f32. -/
def from_f32 (f : F32) : Value := Value.Float f

/-- From borrowed f32: clones the referent. -/
def from_ref_f32 (f : F32) : Value := Value.Float f

/-- From borrowed Option of f32. -/
def from_opt_f32 : Option F32 → Value := fromOptVia from_ref_f32

/-- From owned f64. -/
def from_f64 (f : F64) : Value := Value.Double f

/-- From borrowed f64: clones the referent. -/
def from_ref_f64 (f : F64) : Value := Value.Double f

/-- From borrowed Option of f64. -/
def from_opt_f64 : Option F64 → Value := fromOptVia from_ref_f64

/-- From owned byte vector. -/
def from_blob (f : List Nat) : Value := Value.Blob f

/-- From borrowed byte vector: clones the referent. -/
def from_ref_blob (f : List Nat) : Value := Value.Blob f

/-- From borrowed Option of byte vector. -/
def from_opt_blob : Option (List Nat) → Value := fromOptVia from_ref_blob

/-- From owned String. -/
def from_string (f : String) : Value := Value.Text f

/-- From borrowed String: clones the referent. -/
def from_ref_string (f : String) : Value := Value.Text f

/-- From borrowed Option of String. -/
def from_opt_string : Option String → Value := fromOptVia from_ref_string

/-- From owned static str. -/
def from_str (f : String) : Value := Value.Str f

/-- From borrowed static str. -/
def from_ref_str (f : String) : Value := Value.Str f

/-- From borrowed Option of static str. -/
def from_opt_str : Option String → Value := fromOptVia from_ref_str

/-- From owned Uuid. -/
def from_uuid (f : UuidT) : Value := Value.Uuid f

/-- From borrowed Uuid: clones the referent. -/
def from_ref_uuid (f : UuidT) : Value := Value.Uuid f

/-- From borrowed Option of Uuid. -/
def from_opt_uuid : Option UuidT → Value := fromOptVia from_ref_uuid

/-- From owned NaiveDate. -/
def from_date (f : NaiveDateT) : Value := Value.Date f

/-- From borrowed NaiveDate: clones the referent. -/
def from_ref_date (f : NaiveDateT) : Value := Value.Date f

/-- From borrowed Option of NaiveDate. -/
def from_opt_date : Option NaiveDateT → Value := fromOptVia from_ref_date

/-- From owned DateTime in UTC. -/
def from_timestamp (f : DateTimeUtc) : Value := Value.Timestamp f

/-- From borrowed DateTime in UTC: clones the referent. -/
def from_ref_timestamp (f : DateTimeUtc) : Value := Value.Timestamp f

/-- From borrowed Option of DateTime in UTC. -/
def from_opt_timestamp : Option DateTimeUtc → Value := fromOptVia from_ref_timestamp

/-!
Backward conversion protocol.  impl_tryfrom!($ty, $ty_name, $variants..)
generates, per target type, a TryFrom on a Value reference with one Ok arm
per accepted source variant — the payload cast `v.to_owned() as $ty` is a
widening sign-extension on integers (the identity on the represented
value) and the bit-level f32-to-f64 widening on floats — plus a catch-all
Err arm building NotSupported(value.get_type_name(), $ty_name); and a
TryFrom into Option of the target, whose common body is tryFromOptVia.
-/

/-- The Option-target arm of impl_tryfrom!: Nil becomes Ok(None), any
other variant delegates to the non-optional conversion, wrapping Some. -/
def tryFromOptVia (tryFromT : Value → Except ConvertError α) (value : Value) :
    Except ConvertError (Option α) :=
  match value with
  | Value.Nil => Except.ok none
  | v => (tryFromT v).map (fun x => some x)

/-- TryFrom a Value reference into bool; accepts Bool. -/
def tryFrom_bool (value : Value) : Except ConvertError Bool :=
  match value with
  | Value.Bool v => Except.ok v
  | v => Except.error (ConvertError.NotSupported v.getTypeName "bool")

/-- TryFrom a Value reference into Option of bool. -/
def tryFromOpt_bool : Value → Except ConvertError (Option Bool) :=
  tryFromOptVia tryFrom_bool

/-- TryFrom a Value reference into i8; accepts Tinyint. -/
def tryFrom_i8 (value : Value) : Except ConvertError I8 :=
  match value with
  | Value.Tinyint v => Except.ok v
  | v => Except.error (ConvertError.NotSupported v.getTypeName "i8")

/-- TryFrom a Value reference into Option of i8. -/
def tryFromOpt_i8 : Value → Except ConvertError (Option I8) :=
  tryFromOptVia tryFrom_i8

/-- TryFrom a Value reference into i16; accepts Tinyint and Smallint. -/
def tryFrom_i16 (value : Value) : Except ConvertError I16 :=
  match value with
  | Value.Tinyint v => Except.ok v
  | Value.Smallint v => Except.ok v
  | v => Except.error (ConvertError.NotSupported v.getTypeName "i16")

/-- TryFrom a Value reference into Option of i16. -/
def tryFromOpt_i16 : Value → Except ConvertError (Option I16) :=
  tryFromOptVia tryFrom_i16

/-- TryFrom a Value reference into i32; accepts Tinyint, Smallint, Int. -/
def tryFrom_i32 (value : Value) : Except ConvertError I32 :=
  match value with
  | Value.Tinyint v => Except.ok v
  | Value.Smallint v => Except.ok v
  | Value.Int v => Except.ok v
  | v => Except.error (ConvertError.NotSupported v.getTypeName "i32")

/-- TryFrom a Value reference into Option of i32. -/
def tryFromOpt_i32 : Value → Except ConvertError (Option I32) :=
  tryFromOptVia tryFrom_i32

/-- TryFrom a Value reference into i64; accepts Tinyint, Smallint, Int,
Bigint. -/
def tryFrom_i64 (value : Value) : Except ConvertError I64 :=
  match value with
  | Value.Tinyint v => Except.ok v
  | Value.Smallint v => Except.ok v
  | Value.Int v => Except.ok v
  | Value.Bigint v => Except.ok v
  | v => Except.error (ConvertError.NotSupported v.getTypeName "i64")

/-- TryFrom a Value reference into Option of i64. -/
def tryFromOpt_i64 : Value → Except ConvertError (Option I64) :=
  tryFromOptVia tryFrom_i64

/-- TryFrom a Value reference into f32; accepts Float only. -/
def tryFrom_f32 (value : Value) : Except ConvertError F32 :=
  match value with
  | Value.Float v => Except.ok v
  | v => Except.error (ConvertError.NotSupported v.getTypeName "f32")

/-- TryFrom a Value reference into Option of f32. -/
def tryFromOpt_f32 : Value → Except ConvertError (Option F32) :=
  tryFromOptVia tryFrom_f32

/-- TryFrom a Value reference into f64; accepts Float (widened bit-level)
and Double. -/
def tryFrom_f64 (value : Value) : Except ConvertError F64 :=
  match value with
  | Value.Float v => Except.ok (f32ToF64 v)
  | Value.Double v => Except.ok v
  | v => Except.error (ConvertError.NotSupported v.getTypeName "f64")

/-- TryFrom a Value reference into Option of f64. -/
def tryFromOpt_f64 : Value → Except ConvertError (Option F64) :=
  tryFromOptVia tryFrom_f64

/-- TryFrom a Value reference into a byte vector; accepts Blob. -/
def tryFrom_blob (value : Value) : Except ConvertError (List Nat) :=
  match value with
  | Value.Blob v => Except.ok v
  | v => Except.error (ConvertError.NotSupported v.getTypeName "Vec<u8>")

/-- TryFrom a Value reference into Option of a byte vector. -/
def tryFromOpt_blob : Value → Except ConvertError (Option (List Nat)) :=
  tryFromOptVia tryFrom_blob

/-- TryFrom a Value reference into String; accepts Text. -/
def tryFrom_string (value : Value) : Except ConvertError String :=
  match value with
  | Value.Text v => Except.ok v
  | v => Except.error (ConvertError.NotSupported v.getTypeName "String")

/-- TryFrom a Value reference into Option of String. -/
def tryFromOpt_string : Value → Except ConvertError (Option String) :=
  tryFromOptVia tryFrom_string

/-- TryFrom a Value reference into a static str; accepts Str. -/
def tryFrom_str (value : Value) : Except ConvertError String :=
  match value with
  | Value.Str v => Except.ok v
  | v => Except.error (ConvertError.NotSupported v.getTypeName "&'static str")

/-- TryFrom a Value reference into Option of a static str. -/
def tryFromOpt_str : Value → Except ConvertError (Option String) :=
  tryFromOptVia tryFrom_str

/-- TryFrom a Value reference into Uuid; accepts Uuid. -/
def tryFrom_uuid (value : Value) : Except ConvertError UuidT :=
  match value with
  | Value.Uuid v => Except.ok v
  | v => Except.error (ConvertError.NotSupported v.getTypeName "Uuid")

/-- TryFrom a Value reference into Option of Uuid. -/
def tryFromOpt_uuid : Value → Except ConvertError (Option UuidT) :=
  tryFromOptVia tryFrom_uuid

/-- TryFrom a Value reference into NaiveDate; accepts Date. -/
def tryFrom_date (value : Value) : Except ConvertError NaiveDateT :=
  match value with
  | Value.Date v => Except.ok v
  | v => Except.error (ConvertError.NotSupported v.getTypeName "NaiveDate")

/-- TryFrom a Value reference into Option of NaiveDate. -/
def tryFromOpt_date : Value → Except ConvertError (Option NaiveDateT) :=
  tryFromOptVia tryFrom_date

/-- TryFrom a Value reference into DateTime in UTC; accepts Timestamp. -/
def tryFrom_timestamp (value : Value) : Except ConvertError DateTimeUtc :=
  match value with
  | Value.Timestamp v => Except.ok v
  | v => Except.error (ConvertError.NotSupported v.getTypeName "DateTime<Utc>")

/-- TryFrom a Value reference into Option of DateTime in UTC. -/
def tryFromOpt_timestamp : Value → Except ConvertError (Option DateTimeUtc) :=
  tryFromOptVia tryFrom_timestamp

/-!
Serialization.  `Value` derives Serialize and Deserialize; the derived
external representation of an enum is tagged: a discriminant identifying
the variant plus the variant's payload.
-/

/-- Modelled from the spec: the serde-derived encoder of `Value` is not
under src/; per the spec the external representation is a discriminant
identifying the variant plus the variant's payload, flattened here to a
sequence of integers (characters and bytes by their code points, a
timestamp by seconds then nanoseconds). -/
def encode : Value → Nat × List Int
  | Value.Nil => (0, [])
  | Value.Bool b => (1, [if b then 1 else 0])
  | Value.Tinyint x => (2, [x])
  | Value.Smallint x => (3, [x])
  | Value.Int x => (4, [x])
  | Value.Bigint x => (5, [x])
  | Value.Float x => (6, [Int.ofNat x])
  | Value.Double x => (7, [Int.ofNat x])
  | Value.Blob bytes => (8, bytes.map Int.ofNat)
  | Value.Text s => (9, s.data.map (fun c => Int.ofNat c.toNat))
  | Value.Str s => (10, s.data.map (fun c => Int.ofNat c.toNat))
  | Value.Uuid u => (11, [Int.ofNat u])
  | Value.Date d => (12, [d])
  | Value.Timestamp t => (13, [t.secs, Int.ofNat t.nsecs])

/-- Modelled from the spec: the serde-derived decoder of `Value` is not
under src/; it dispatches on the discriminant and rebuilds the variant
from the payload, rejecting any malformed input. -/
def decode : Nat × List Int → Option Value
  | (0, []) => some Value.Nil
  | (1, [b]) =>
    if b = 1 then some (Value.Bool true)
    else if b = 0 then some (Value.Bool false)
    else none
  | (2, [x]) => some (Value.Tinyint x)
  | (3, [x]) => some (Value.Smallint x)
  | (4, [x]) => some (Value.Int x)
  | (5, [x]) => some (Value.Bigint x)
  | (6, [x]) => some (Value.Float x.toNat)
  | (7, [x]) => some (Value.Double x.toNat)
  | (8, payload) => some (Value.Blob (payload.map Int.toNat))
  | (9, payload) => some (Value.Text ⟨payload.map (fun i => Char.ofNat i.toNat)⟩)
  | (10, payload) => some (Value.Str ⟨payload.map (fun i => Char.ofNat i.toNat)⟩)
  | (11, [u]) => some (Value.Uuid u.toNat)
  | (12, [d]) => some (Value.Date d)
  | (13, [s, n]) => some (Value.Timestamp ⟨s, n.toNat⟩)
  | _ => none

/-- The variant-to-label table of get_type_name, indexed by the variant
tag alone: the label depends only on which variant is held. -/
def tagName : Tag → String
  | Tag.nil => "Nil"
  | Tag.bool => "bool"
  | Tag.tinyint => "i8"
  | Tag.smallint => "i16"
  | Tag.int => "i32"
  | Tag.bigint => "i64"
  | Tag.float => "f32"
  | Tag.double => "f64"
  | Tag.blob => "Vec<u8>"
  | Tag.text => "String"
  | Tag.str => "&'static str"
  | Tag.uuid => "Uuid"
  | Tag.date => "NaiveDate"
  | Tag.timestamp => "DateTime"

/-- C1: the backward conversion succeeds exactly when the Value's variant
is in the target's accepted source set, and the decision is variant-based:
each integer target accepts every integer variant of width at most its own
along Tinyint, Smallint, Int, Bigint; f32 accepts only Float; f64 accepts
Float and Double; every non-numeric target accepts only its own exact
variant.  In particular i32 from Bigint(x) is rejected with NotSupported
for every x, even when x fits in the i32 range. -/
theorem tryFrom_variant_policy :
    (∀ v : Value, (∃ r, tryFrom_bool v = Except.ok r) ↔ v.tag ∈ [Tag.bool]) ∧
    (∀ v : Value, (∃ r, tryFrom_i8 v = Except.ok r) ↔ v.tag ∈ [Tag.tinyint]) ∧
    (∀ v : Value, (∃ r, tryFrom_i16 v = Except.ok r) ↔
      v.tag ∈ [Tag.tinyint, Tag.smallint]) ∧
    (∀ v : Value, (∃ r, tryFrom_i32 v = Except.ok r) ↔
      v.tag ∈ [Tag.tinyint, Tag.smallint, Tag.int]) ∧
    (∀ v : Value, (∃ r, tryFrom_i64 v = Except.ok r) ↔
      v.tag ∈ [Tag.tinyint, Tag.smallint, Tag.int, Tag.bigint]) ∧
    (∀ v : Value, (∃ r, tryFrom_f32 v = Except.ok r) ↔ v.tag ∈ [Tag.float]) ∧
    (∀ v : Value, (∃ r, tryFrom_f64 v = Except.ok r) ↔
      v.tag ∈ [Tag.float, Tag.double]) ∧
    (∀ v : Value, (∃ r, tryFrom_blob v = Except.ok r) ↔ v.tag ∈ [Tag.blob]) ∧
    (∀ v : Value, (∃ r, tryFrom_string v = Except.ok r) ↔ v.tag ∈ [Tag.text]) ∧
    (∀ v : Value, (∃ r, tryFrom_str v = Except.ok r) ↔ v.tag ∈ [Tag.str]) ∧
    (∀ v : Value, (∃ r, tryFrom_uuid v = Except.ok r) ↔ v.tag ∈ [Tag.uuid]) ∧
    (∀ v : Value, (∃ r, tryFrom_date v = Except.ok r) ↔ v.tag ∈ [Tag.date]) ∧
    (∀ v : Value, (∃ r, tryFrom_timestamp v = Except.ok r) ↔
      v.tag ∈ [Tag.timestamp]) ∧
    (∀ x : I64, tryFrom_i32 (Value.Bigint x) =
      Except.error (ConvertError.NotSupported "i64" "i32")) :=
  ⟨fun v => by cases v <;> simp [tryFrom_bool, Value.tag],
   fun v => by cases v <;> simp [tryFrom_i8, Value.tag],
   fun v => by cases v <;> simp [tryFrom_i16, Value.tag],
   fun v => by cases v <;> simp [tryFrom_i32, Value.tag],
   fun v => by cases v <;> simp [tryFrom_i64, Value.tag],
   fun v => by cases v <;> simp [tryFrom_f32, Value.tag],
   fun v => by cases v <;> simp [tryFrom_f64, Value.tag],
   fun v => by cases v <;> simp [tryFrom_blob, Value.tag],
   fun v => by cases v <;> simp [tryFrom_string, Value.tag],
   fun v => by cases v <;> simp [tryFrom_str, Value.tag],
   fun v => by cases v <;> simp [tryFrom_uuid, Value.tag],
   fun v => by cases v <;> simp [tryFrom_date, Value.tag],
   fun v => by cases v <;> simp [tryFrom_timestamp, Value.tag],
   fun x => rfl⟩

/-- C2: exact-type round trip — for every supported native scalar type and
every value of it, converting into Value by the forward protocol and back
by the backward protocol yields Ok of a structurally equal value. -/
theorem roundtrip_exact :
    (∀ v : Bool, tryFrom_bool (from_bool v) = Except.ok v) ∧
    (∀ v : I8, tryFrom_i8 (from_i8 v) = Except.ok v) ∧
    (∀ v : I16, tryFrom_i16 (from_i16 v) = Except.ok v) ∧
    (∀ v : I32, tryFrom_i32 (from_i32 v) = Except.ok v) ∧
    (∀ v : I64, tryFrom_i64 (from_i64 v) = Except.ok v) ∧
    (∀ v : F32, tryFrom_f32 (from_f32 v) = Except.ok v) ∧
    (∀ v : F64, tryFrom_f64 (from_f64 v) = Except.ok v) ∧
    (∀ v : List Nat, tryFrom_blob (from_blob v) = Except.ok v) ∧
    (∀ v : String, tryFrom_string (from_string v) = Except.ok v) ∧
    (∀ v : String, tryFrom_str (from_str v) = Except.ok v) ∧
    (∀ v : UuidT, tryFrom_uuid (from_uuid v) = Except.ok v) ∧
    (∀ v : NaiveDateT, tryFrom_date (from_date v) = Except.ok v) ∧
    (∀ v : DateTimeUtc, tryFrom_timestamp (from_timestamp v) = Except.ok v) :=
  ⟨fun _ => rfl, fun _ => rfl, fun _ => rfl, fun _ => rfl, fun _ => rfl,
   fun _ => rfl, fun _ => rfl, fun _ => rfl, fun _ => rfl, fun _ => rfl,
   fun _ => rfl, fun _ => rfl, fun _ => rfl⟩

/-- On any Value other than Nil, the Option-target conversion delegates to
the supplied non-optional conversion and wraps the success in some. -/
theorem tryFromOptVia_ne_nil (tf : Value → Except ConvertError α) (v : Value)
    (h : v ≠ Value.Nil) : tryFromOptVia tf v = (tf v).map some := by
  cases v <;> first | exact absurd rfl h | rfl

/-- C3: optionality on both sides — the borrowed-Option forward conversion
sends None to Nil; the Option-target backward conversion sends Nil to
Ok(None) and on every non-Nil Value delegates to the non-optional backward
conversion wrapping the success in Some; for example Option i16 from
Smallint(7) is Ok(Some 7). -/
theorem option_protocol :
    (from_opt_bool none = Value.Nil ∧
      tryFromOpt_bool Value.Nil = Except.ok none ∧
      ∀ v : Value, v ≠ Value.Nil →
        tryFromOpt_bool v = (tryFrom_bool v).map some) ∧
    (from_opt_i8 none = Value.Nil ∧
      tryFromOpt_i8 Value.Nil = Except.ok none ∧
      ∀ v : Value, v ≠ Value.Nil →
        tryFromOpt_i8 v = (tryFrom_i8 v).map some) ∧
    (from_opt_i16 none = Value.Nil ∧
      tryFromOpt_i16 Value.Nil = Except.ok none ∧
      ∀ v : Value, v ≠ Value.Nil →
        tryFromOpt_i16 v = (tryFrom_i16 v).map some) ∧
    (from_opt_i32 none = Value.Nil ∧
      tryFromOpt_i32 Value.Nil = Except.ok none ∧
      ∀ v : Value, v ≠ Value.Nil →
        tryFromOpt_i32 v = (tryFrom_i32 v).map some) ∧
    (from_opt_i64 none = Value.Nil ∧
      tryFromOpt_i64 Value.Nil = Except.ok none ∧
      ∀ v : Value, v ≠ Value.Nil →
        tryFromOpt_i64 v = (tryFrom_i64 v).map some) ∧
    (from_opt_f32 none = Value.Nil ∧
      tryFromOpt_f32 Value.Nil = Except.ok none ∧
      ∀ v : Value, v ≠ Value.Nil →
        tryFromOpt_f32 v = (tryFrom_f32 v).map some) ∧
    (from_opt_f64 none = Value.Nil ∧
      tryFromOpt_f64 Value.Nil = Except.ok none ∧
      ∀ v : Value, v ≠ Value.Nil →
        tryFromOpt_f64 v = (tryFrom_f64 v).map some) ∧
    (from_opt_blob none = Value.Nil ∧
      tryFromOpt_blob Value.Nil = Except.ok none ∧
      ∀ v : Value, v ≠ Value.Nil →
        tryFromOpt_blob v = (tryFrom_blob v).map some) ∧
    (from_opt_string none = Value.Nil ∧
      tryFromOpt_string Value.Nil = Except.ok none ∧
      ∀ v : Value, v ≠ Value.Nil →
        tryFromOpt_string v = (tryFrom_string v).map some) ∧
    (from_opt_str none = Value.Nil ∧
      tryFromOpt_str Value.Nil = Except.ok none ∧
      ∀ v : Value, v ≠ Value.Nil →
        tryFromOpt_str v = (tryFrom_str v).map some) ∧
    (from_opt_uuid none = Value.Nil ∧
      tryFromOpt_uuid Value.Nil = Except.ok none ∧
      ∀ v : Value, v ≠ Value.Nil →
        tryFromOpt_uuid v = (tryFrom_uuid v).map some) ∧
    (from_opt_date none = Value.Nil ∧
      tryFromOpt_date Value.Nil = Except.ok none ∧
      ∀ v : Value, v ≠ Value.Nil →
        tryFromOpt_date v = (tryFrom_date v).map some) ∧
    (from_opt_timestamp none = Value.Nil ∧
      tryFromOpt_timestamp Value.Nil = Except.ok none ∧
      ∀ v : Value, v ≠ Value.Nil →
        tryFromOpt_timestamp v = (tryFrom_timestamp v).map some) ∧
    tryFromOpt_i16 (Value.Smallint 7) = Except.ok (some 7) :=
  ⟨⟨rfl, rfl, tryFromOptVia_ne_nil tryFrom_bool⟩,
   ⟨rfl, rfl, tryFromOptVia_ne_nil tryFrom_i8⟩,
   ⟨rfl, rfl, tryFromOptVia_ne_nil tryFrom_i16⟩,
   ⟨rfl, rfl, tryFromOptVia_ne_nil tryFrom_i32⟩,
   ⟨rfl, rfl, tryFromOptVia_ne_nil tryFrom_i64⟩,
   ⟨rfl, rfl, tryFromOptVia_ne_nil tryFrom_f32⟩,
   ⟨rfl, rfl, tryFromOptVia_ne_nil tryFrom_f64⟩,
   ⟨rfl, rfl, tryFromOptVia_ne_nil tryFrom_blob⟩,
   ⟨rfl, rfl, tryFromOptVia_ne_nil tryFrom_string⟩,
   ⟨rfl, rfl, tryFromOptVia_ne_nil tryFrom_str⟩,
   ⟨rfl, rfl, tryFromOptVia_ne_nil tryFrom_uuid⟩,
   ⟨rfl, rfl, tryFromOptVia_ne_nil tryFrom_date⟩,
   ⟨rfl, rfl, tryFromOptVia_ne_nil tryFrom_timestamp⟩,
   rfl⟩

/-- Witness for C3 at concrete inputs: Smallint(7) and Bool(true) are not
Nil, and the Option-target conversions there delegate with Some. -/
theorem option_protocol_witness :
    (Value.Smallint 7 ≠ Value.Nil ∧
      tryFromOpt_i16 (Value.Smallint 7) =
        (tryFrom_i16 (Value.Smallint 7)).map some) ∧
    (Value.Bool true ≠ Value.Nil ∧
      tryFromOpt_bool (Value.Bool true) =
        (tryFrom_bool (Value.Bool true)).map some) :=
  ⟨⟨by decide, option_protocol.2.2.1.2.2 (Value.Smallint 7) (by decide)⟩,
   ⟨by decide, option_protocol.1.2.2 (Value.Bool true) (by decide)⟩⟩

/-- C4: on any variant outside the target's accepted source set, Nil
included, the backward conversion returns through the normal result
channel the error NotSupported(actual, requested), where actual is the
label of the Value's current variant and requested the target's label; in
particular i64 from Text is NotSupported("String", "i64"). -/
theorem rejection_error :
    (∀ v : Value, v.tag ∉ [Tag.bool] →
      tryFrom_bool v =
        Except.error (ConvertError.NotSupported v.getTypeName "bool")) ∧
    (∀ v : Value, v.tag ∉ [Tag.tinyint] →
      tryFrom_i8 v =
        Except.error (ConvertError.NotSupported v.getTypeName "i8")) ∧
    (∀ v : Value, v.tag ∉ [Tag.tinyint, Tag.smallint] →
      tryFrom_i16 v =
        Except.error (ConvertError.NotSupported v.getTypeName "i16")) ∧
    (∀ v : Value, v.tag ∉ [Tag.tinyint, Tag.smallint, Tag.int] →
      tryFrom_i32 v =
        Except.error (ConvertError.NotSupported v.getTypeName "i32")) ∧
    (∀ v : Value, v.tag ∉ [Tag.tinyint, Tag.smallint, Tag.int, Tag.bigint] →
      tryFrom_i64 v =
        Except.error (ConvertError.NotSupported v.getTypeName "i64")) ∧
    (∀ v : Value, v.tag ∉ [Tag.float] →
      tryFrom_f32 v =
        Except.error (ConvertError.NotSupported v.getTypeName "f32")) ∧
    (∀ v : Value, v.tag ∉ [Tag.float, Tag.double] →
      tryFrom_f64 v =
        Except.error (ConvertError.NotSupported v.getTypeName "f64")) ∧
    (∀ v : Value, v.tag ∉ [Tag.blob] →
      tryFrom_blob v =
        Except.error (ConvertError.NotSupported v.getTypeName "Vec<u8>")) ∧
    (∀ v : Value, v.tag ∉ [Tag.text] →
      tryFrom_string v =
        Except.error (ConvertError.NotSupported v.getTypeName "String")) ∧
    (∀ v : Value, v.tag ∉ [Tag.str] →
      tryFrom_str v =
        Except.error (ConvertError.NotSupported v.getTypeName "&'static str")) ∧
    (∀ v : Value, v.tag ∉ [Tag.uuid] →
      tryFrom_uuid v =
        Except.error (ConvertError.NotSupported v.getTypeName "Uuid")) ∧
    (∀ v : Value, v.tag ∉ [Tag.date] →
      tryFrom_date v =
        Except.error (ConvertError.NotSupported v.getTypeName "NaiveDate")) ∧
    (∀ v : Value, v.tag ∉ [Tag.timestamp] →
      tryFrom_timestamp v =
        Except.error (ConvertError.NotSupported v.getTypeName "DateTime<Utc>")) ∧
    (∀ s : String, tryFrom_i64 (Value.Text s) =
      Except.error (ConvertError.NotSupported "String" "i64")) :=
  ⟨fun v h => by cases v <;> first | rfl | exact absurd (by simp [Value.tag]) h,
   fun v h => by cases v <;> first | rfl | exact absurd (by simp [Value.tag]) h,
   fun v h => by cases v <;> first | rfl | exact absurd (by simp [Value.tag]) h,
   fun v h => by cases v <;> first | rfl | exact absurd (by simp [Value.tag]) h,
   fun v h => by cases v <;> first | rfl | exact absurd (by simp [Value.tag]) h,
   fun v h => by cases v <;> first | rfl | exact absurd (by simp [Value.tag]) h,
   fun v h => by cases v <;> first | rfl | exact absurd (by simp [Value.tag]) h,
   fun v h => by cases v <;> first | rfl | exact absurd (by simp [Value.tag]) h,
   fun v h => by cases v <;> first | rfl | exact absurd (by simp [Value.tag]) h,
   fun v h => by cases v <;> first | rfl | exact absurd (by simp [Value.tag]) h,
   fun v h => by cases v <;> first | rfl | exact absurd (by simp [Value.tag]) h,
   fun v h => by cases v <;> first | rfl | exact absurd (by simp [Value.tag]) h,
   fun v h => by cases v <;> first | rfl | exact absurd (by simp [Value.tag]) h,
   fun _ => rfl⟩

/-- Witness for C4 at concrete inputs: Nil is outside the accepted set of
i64, and the conversion there yields NotSupported("Nil", "i64"); Float(0)
is outside the accepted set of bool, yielding NotSupported("f32", "bool"). -/
theorem rejection_error_witness :
    ((Value.Nil.tag ∉ [Tag.tinyint, Tag.smallint, Tag.int, Tag.bigint]) ∧
      tryFrom_i64 Value.Nil =
        Except.error (ConvertError.NotSupported Value.Nil.getTypeName "i64")) ∧
    ((Value.Float 0).tag ∉ [Tag.bool] ∧
      tryFrom_bool (Value.Float 0) =
        Except.error
          (ConvertError.NotSupported (Value.Float 0).getTypeName "bool")) :=
  ⟨⟨by decide, rejection_error.2.2.2.2.1 Value.Nil (by decide)⟩,
   ⟨by decide, rejection_error.1 (Value.Float 0) (by decide)⟩⟩

/-- Mapping naturals into integers and back is the identity. -/
theorem map_ofNat_toNat (l : List Nat) : (l.map Int.ofNat).map Int.toNat = l := by
  induction l with
  | nil => rfl
  | cons x t ih => simp [ih]

/-- Mapping characters to their code points and back is the identity. -/
theorem map_char_codes (l : List Char) :
    (l.map (fun c => Int.ofNat c.toNat)).map (fun i => Char.ofNat i.toNat) = l := by
  induction l with
  | nil => rfl
  | cons c t ih =>
    simp only [List.map_cons]
    rw [ih]
    simp [Int.toNat_ofNat, Char.ofNat_toNat]

/-- C5: serialization round trip — encoding any Value to the tagged
external representation and decoding it reproduces an equal Value for
every variant, Nil and the zero-length Blob included. -/
theorem serialization_roundtrip :
    (∀ v : Value, decode (encode v) = some v) ∧
    decode (encode Value.Nil) = some Value.Nil ∧
    decode (encode (Value.Blob [])) = some (Value.Blob []) := by
  refine ⟨?_, rfl, rfl⟩
  intro v
  cases v with
  | Nil => rfl
  | Bool b => cases b <;> rfl
  | Tinyint x => rfl
  | Smallint x => rfl
  | Int x => rfl
  | Bigint x => rfl
  | Float x => rfl
  | Double x => rfl
  | Blob bytes =>
    show (some (Value.Blob ((bytes.map Int.ofNat).map Int.toNat)) : Option Value) =
      some (Value.Blob bytes)
    rw [map_ofNat_toNat]
  | Text s =>
    cases s with
    | mk data =>
      show (some (Value.Text
          ⟨(data.map (fun c => Int.ofNat c.toNat)).map
            (fun i => Char.ofNat i.toNat)⟩) : Option Value) =
        some (Value.Text ⟨data⟩)
      rw [map_char_codes]
  | Str s =>
    cases s with
    | mk data =>
      show (some (Value.Str
          ⟨(data.map (fun c => Int.ofNat c.toNat)).map
            (fun i => Char.ofNat i.toNat)⟩) : Option Value) =
        some (Value.Str ⟨data⟩)
      rw [map_char_codes]
  | Uuid u => rfl
  | Date d => rfl
  | Timestamp t => cases t with
    | mk secs nsecs => rfl

/-- C6: forward protocol totality and agreement — for every supported
type the owned, borrowed and borrowed-optional conversions exist as total
functions; the owned form wraps the payload in the corresponding variant,
with Value from 42 as i32 equal to Int(42); and the borrowed form agrees
with the owned form on every value. -/
theorem forward_protocol :
    (∀ v : Bool, from_bool v = Value.Bool v ∧ from_ref_bool v = from_bool v) ∧
    (∀ v : I8, from_i8 v = Value.Tinyint v ∧ from_ref_i8 v = from_i8 v) ∧
    (∀ v : I16, from_i16 v = Value.Smallint v ∧ from_ref_i16 v = from_i16 v) ∧
    (∀ v : I32, from_i32 v = Value.Int v ∧ from_ref_i32 v = from_i32 v) ∧
    (∀ v : I64, from_i64 v = Value.Bigint v ∧ from_ref_i64 v = from_i64 v) ∧
    (∀ v : F32, from_f32 v = Value.Float v ∧ from_ref_f32 v = from_f32 v) ∧
    (∀ v : F64, from_f64 v = Value.Double v ∧ from_ref_f64 v = from_f64 v) ∧
    (∀ v : List Nat, from_blob v = Value.Blob v ∧ from_ref_blob v = from_blob v) ∧
    (∀ v : String, from_string v = Value.Text v ∧ from_ref_string v = from_string v) ∧
    (∀ v : String, from_str v = Value.Str v ∧ from_ref_str v = from_str v) ∧
    (∀ v : UuidT, from_uuid v = Value.Uuid v ∧ from_ref_uuid v = from_uuid v) ∧
    (∀ v : NaiveDateT, from_date v = Value.Date v ∧ from_ref_date v = from_date v) ∧
    (∀ v : DateTimeUtc,
      from_timestamp v = Value.Timestamp v ∧
        from_ref_timestamp v = from_timestamp v) ∧
    from_i32 42 = Value.Int 42 :=
  ⟨fun _ => ⟨rfl, rfl⟩, fun _ => ⟨rfl, rfl⟩, fun _ => ⟨rfl, rfl⟩,
   fun _ => ⟨rfl, rfl⟩, fun _ => ⟨rfl, rfl⟩, fun _ => ⟨rfl, rfl⟩,
   fun _ => ⟨rfl, rfl⟩, fun _ => ⟨rfl, rfl⟩, fun _ => ⟨rfl, rfl⟩,
   fun _ => ⟨rfl, rfl⟩, fun _ => ⟨rfl, rfl⟩, fun _ => ⟨rfl, rfl⟩,
   fun _ => ⟨rfl, rfl⟩, rfl⟩

/-- C8: the borrowed-optional forward conversion produces Nil exactly for
the absent case — for every supported type and option value, the result is
Nil if and only if the option is none. -/
theorem fromOpt_nil_iff :
    (∀ o : Option Bool, from_opt_bool o = Value.Nil ↔ o = none) ∧
    (∀ o : Option I8, from_opt_i8 o = Value.Nil ↔ o = none) ∧
    (∀ o : Option I16, from_opt_i16 o = Value.Nil ↔ o = none) ∧
    (∀ o : Option I32, from_opt_i32 o = Value.Nil ↔ o = none) ∧
    (∀ o : Option I64, from_opt_i64 o = Value.Nil ↔ o = none) ∧
    (∀ o : Option F32, from_opt_f32 o = Value.Nil ↔ o = none) ∧
    (∀ o : Option F64, from_opt_f64 o = Value.Nil ↔ o = none) ∧
    (∀ o : Option (List Nat), from_opt_blob o = Value.Nil ↔ o = none) ∧
    (∀ o : Option String, from_opt_string o = Value.Nil ↔ o = none) ∧
    (∀ o : Option String, from_opt_str o = Value.Nil ↔ o = none) ∧
    (∀ o : Option UuidT, from_opt_uuid o = Value.Nil ↔ o = none) ∧
    (∀ o : Option NaiveDateT, from_opt_date o = Value.Nil ↔ o = none) ∧
    (∀ o : Option DateTimeUtc, from_opt_timestamp o = Value.Nil ↔ o = none) :=
  ⟨fun o => by cases o <;> simp [from_opt_bool, fromOptVia, from_ref_bool],
   fun o => by cases o <;> simp [from_opt_i8, fromOptVia, from_ref_i8],
   fun o => by cases o <;> simp [from_opt_i16, fromOptVia, from_ref_i16],
   fun o => by cases o <;> simp [from_opt_i32, fromOptVia, from_ref_i32],
   fun o => by cases o <;> simp [from_opt_i64, fromOptVia, from_ref_i64],
   fun o => by cases o <;> simp [from_opt_f32, fromOptVia, from_ref_f32],
   fun o => by cases o <;> simp [from_opt_f64, fromOptVia, from_ref_f64],
   fun o => by cases o <;> simp [from_opt_blob, fromOptVia, from_ref_blob],
   fun o => by cases o <;> simp [from_opt_string, fromOptVia, from_ref_string],
   fun o => by cases o <;> simp [from_opt_str, fromOptVia, from_ref_str],
   fun o => by cases o <;> simp [from_opt_uuid, fromOptVia, from_ref_uuid],
   fun o => by cases o <;> simp [from_opt_date, fromOptVia, from_ref_date],
   fun o => by
     cases o <;> simp [from_opt_timestamp, fromOptVia, from_ref_timestamp]⟩

/-- C9: the actual-type and requested-type labels for the timestamp type
differ — the variant-to-label function maps Timestamp to "DateTime" while
the requested-type label of the DateTime target is "DateTime<Utc>"; so a
failed conversion out of a Timestamp carries "DateTime", as in bool from
Timestamp, while a failed conversion into the timestamp target carries
"DateTime<Utc>". -/
theorem timestamp_label_mismatch :
    (∀ t : DateTimeUtc, (Value.Timestamp t).getTypeName = "DateTime") ∧
    ("DateTime" : String) ≠ "DateTime<Utc>" ∧
    (∀ t : DateTimeUtc, tryFrom_bool (Value.Timestamp t) =
      Except.error (ConvertError.NotSupported "DateTime" "bool")) ∧
    tryFrom_timestamp Value.Nil =
      Except.error (ConvertError.NotSupported "Nil" "DateTime<Utc>") :=
  ⟨fun _ => rfl, by decide, fun _ => rfl, rfl⟩

/-- C10: the variant-to-label function is total and injective — every one
of the fourteen variants has a label, the label depends only on the
variant tag, and distinct tags receive distinct labels, so the actual-type
string of a NotSupported error identifies the stored variant uniquely. -/
theorem typeName_total_injective :
    (∀ v : Value, v.getTypeName = tagName v.tag) ∧
    (∀ t1 t2 : Tag, tagName t1 = tagName t2 ↔ t1 = t2) :=
  ⟨fun v => by cases v <;> rfl,
   fun t1 t2 => by cases t1 <;> cases t2 <;> decide⟩

end Diwata
